import Mathlib

/-!
# Verification of the ga4-cli path-report pipeline

Shallow embedding of the pure core of `GA4Service` (file `index.js` of
Thynker-Labs/ga4-cli): path-variant computation, the two-phase query
decision of `getPathReport`, and the row-aggregation / formatting helpers
(`sumMetric`, `weightedAvg`, `formatRate`, `formatDuration`, `metric`).

Modelling conventions:
* JavaScript numbers are modelled as exact fractions (`JNum`: an integer
  numerator over a positive natural denominator, unreduced) plus an
  explicit NaN.  Every `JNum` the embedding constructs has a positive
  denominator.  IEEE-754 rounding, overflow and the `Infinity` literal are
  outside the model; every value the claims exercise is a small finite
  decimal, where the exact semantics and the JS semantics agree.
* JavaScript strings are modelled as Lean `String`s (lists of characters);
  the string operations the source uses (`trim`, `startsWith`, `endsWith`,
  `slice(0,-1)`) are defined below on `List Char`.
* `parseFloat` / `parseInt` implement the prefix-parsing semantics of the
  JS builtins (leading whitespace, optional sign, digits, fraction,
  optional exponent; `NaN` when no digit is consumed).
* `String(n)` for the finite decimals produced by the code is `jnumToString`
  (shortest decimal expansion, `"NaN"` for NaN), matching JS output on the
  magnitudes involved.
-/

/-- A JavaScript number: NaN, or the exact fraction `n / d` (with `d > 0`
for every value this embedding constructs). -/
inductive JNum where
  | nan : JNum
  | num : ℤ → ℕ → JNum
deriving DecidableEq

/-- JS `+` on numbers: NaN-absorbing exact addition. -/
def jadd : JNum → JNum → JNum
  | .num a b, .num c d => .num (a * d + c * b) (b * d)
  | _, _ => .nan

/-- JS `*` on numbers: NaN-absorbing exact multiplication. -/
def jmul : JNum → JNum → JNum
  | .num a b, .num c d => .num (a * c) (b * d)
  | _, _ => .nan

/-- JS `/` on numbers (sign moved to the numerator so the denominator stays
positive).  JS division by zero yields an infinity, which is outside the
model; the code only divides after checking the divisor `> 0`, so that
branch is unreachable and is mapped to NaN. -/
def jdiv : JNum → JNum → JNum
  | .num a b, .num c d => if c = 0 then .nan else .num (a * d * c.sign) (b * c.natAbs)
  | _, _ => .nan

/-- Division by a positive integer constant (the code's `/ 10`, `/ 100`). -/
def jdivP (x : JNum) (m : ℕ) : JNum :=
  match x with
  | .num a b => .num a (b * m)
  | .nan => .nan

/-- The JS integer `k` as a `JNum` (for the code's literals `10`, `100`, `1000`). -/
def jint (k : ℤ) : JNum := .num k 1

/-- JS `Math.round`: round half towards positive infinity
(`⌊x + 1/2⌋ = ⌊(2n + d) / 2d⌋`); NaN stays NaN. -/
def jround : JNum → JNum
  | .num a b => .num ((2 * a + (b : ℤ)).fdiv (2 * (b : ℤ))) 1
  | .nan => .nan

/-- JS `n > 0` (false for NaN; for `d > 0`, `n/d > 0 ↔ n > 0`). -/
def jgt0 : JNum → Bool
  | .num a _ => decide (0 < a)
  | .nan => false

/-- JS `n < 1` (false for NaN; for `d > 0`, `n/d < 1 ↔ n < d`). -/
def jlt1 : JNum → Bool
  | .num a b => decide (a < (b : ℤ))
  | .nan => false

/-- JS `n === 0` (false for NaN; for `d > 0`, `n/d = 0 ↔ n = 0`). -/
def jeq0 : JNum → Bool
  | .num a _ => decide (a = 0)
  | .nan => false

/-- JS `isNaN(n)`. -/
def jIsNaN : JNum → Bool
  | .nan => true
  | .num _ _ => false

/-- The whitespace class used by JS `trim` / `parseFloat` (the ASCII part
plus NBSP and the BOM; the rarely used Unicode space separators are not
enumerated — none of the verified properties depend on them). -/
def isJsWs (c : Char) : Bool :=
  c = ' ' || c = '\t' || c = '\n' || c = '\r' || c = '\x0b' || c = '\x0c' ||
  c = ' ' || c = '﻿'

/-- Consume a maximal run of decimal digits, returning the accumulated
value, the number of digits consumed and the rest of the input. -/
def pfDigits : List Char → ℕ → ℕ → ℕ × ℕ × List Char
  | [], v, n => (v, n, [])
  | c :: rest, v, n =>
    if c.isDigit then pfDigits rest (10 * v + (c.toNat - 48)) (n + 1)
    else (v, n, c :: rest)

/-- Parse an optional exponent suffix after `e`/`E`: JS ignores a dangling
exponent marker with no digits. -/
def pfExp (l : List Char) : ℤ :=
  match l with
  | '-' :: r => (fun p => if p.2.1 = 0 then 0 else -(p.1 : ℤ)) (pfDigits r 0 0)
  | '+' :: r => (fun p => if p.2.1 = 0 then 0 else (p.1 : ℤ)) (pfDigits r 0 0)
  | r => (fun p => if p.2.1 = 0 then 0 else (p.1 : ℤ)) (pfDigits r 0 0)

/-- JS `parseFloat` on a character list: skip leading whitespace, optional
sign, integer digits, optional `.` fraction, optional exponent; NaN when no
digit of the mantissa was consumed.  (The `Infinity` literal is not
modelled.) -/
def jparseFloatL (l : List Char) : JNum :=
  let l1 := l.dropWhile isJsWs
  let sign : ℤ × List Char :=
    match l1 with
    | '-' :: r => (-1, r)
    | '+' :: r => (1, r)
    | _ => (1, l1)
  let ip := pfDigits sign.2 0 0
  let fp :=
    match ip.2.2 with
    | '.' :: r => pfDigits r 0 0
    | _ => (0, 0, ip.2.2)
  if ip.2.1 = 0 ∧ fp.2.1 = 0 then .nan
  else
    let mant : ℤ := sign.1 * (ip.1 * 10 ^ fp.2.1 + fp.1)
    let ex : ℤ :=
      match fp.2.2 with
      | 'e' :: r => pfExp r
      | 'E' :: r => pfExp r
      | _ => 0
    if 0 ≤ ex then .num (mant * 10 ^ ex.toNat) (10 ^ fp.2.1)
    else .num mant (10 ^ fp.2.1 * 10 ^ (-ex).toNat)

/-- JS `parseFloat` on a string. -/
def jparseFloat (s : String) : JNum := jparseFloatL s.data

/-- JS `parseInt(s, 10)` on a character list: skip whitespace, optional
sign, then integer digits only; NaN when no digit is consumed. -/
def jparseIntL (l : List Char) : JNum :=
  let l1 := l.dropWhile isJsWs
  let sign : ℤ × List Char :=
    match l1 with
    | '-' :: r => (-1, r)
    | '+' :: r => (1, r)
    | _ => (1, l1)
  let p := pfDigits sign.2 0 0
  if p.2.1 = 0 then .nan else .num (sign.1 * p.1) 1

/-- JS `parseInt(s, 10)` on a string. -/
def jparseInt (s : String) : JNum := jparseIntL s.data

/-- Smallest `k` with `d ∣ 10^k` (exists for the denominators of all finite
decimals; searched up to 40). -/
def decExponent (d : ℕ) : Option ℕ :=
  (List.range 40).find? (fun k => 10 ^ k % d == 0)

/-- Decimal expansion of the nonnegative reduced fraction `n / d` (every
value the code stringifies is a finite decimal of this shape). -/
def decDigitsNN (n : ℕ) (d : ℕ) : String :=
  match decExponent d with
  | some 0 => toString n
  | some k =>
    let scaled : ℕ := n * 10 ^ k / d
    let ipart := scaled / 10 ^ k
    let fpart := scaled % 10 ^ k
    let fs := toString fpart
    let pad := String.mk (List.replicate (k - fs.length) '0')
    toString ipart ++ "." ++ pad ++ fs
  | none => toString n ++ "/" ++ toString d

/-- JS `String(n)` for the numbers this code produces: reduce the fraction,
then print its (shortest) decimal expansion; `"NaN"` for NaN. -/
def jnumToString : JNum → String
  | .nan => "NaN"
  | .num a b =>
    let g := Nat.gcd a.natAbs b
    let n := a.natAbs / g
    let d := b / g
    if a < 0 ∧ n ≠ 0 then "-" ++ decDigitsNN n d else decDigitsNN n d

example : jparseFloat "42.37" = .num 4237 100 := by decide
example : jparseFloat "abc" = .nan := by decide
example : jparseFloat "  .5" = .num 5 10 := by decide
example : jparseFloat "-1.5e2" = .num (-1500) 10 := by decide
example : jparseFloat "12abc" = .num 12 1 := by decide
example : jparseFloat "1e-2" = .num 1 100 := by decide
example : jparseInt "0.5" = .num 0 1 := by decide
example : jparseInt "" = .nan := by decide
example : jnumToString (.num 1990 100) = "19.9" := by decide
example : jnumToString (.num 0 1) = "0" := by decide
example : jnumToString (.num (-75) 100) = "-0.75" := by decide
example : jnumToString (.num 1005 10000) = "0.1005" := by decide
example : jnumToString .nan = "NaN" := by decide
example : jround (jmul (jparseFloat "62.5") (jint 10)) = .num 625 1 := by decide

/-! ## GA4 response data model

A report row carries optional dimension values and optional metric values
(`?.value` chains in the source: an absent array entry, an absent `value`
field and an empty string are all falsy). -/

/-- One row of a GA4 `runReport` response. -/
structure GARow where
  dimensionValues : List (Option String) := []
  metricValues : List (Option String) := []
deriving DecidableEq

/-- A GA4 `runReport` response: `data.totals` (a list of total rows, each
reduced to its `metricValues`) and `data.rows`. -/
structure GAResponse where
  totals : List (List (Option String)) := []
  rows : List GARow := []
deriving DecidableEq

/-- Source `xs?.[i]?.value`: indexing an optional list, absent out of range. -/
def mvAt (mvs : List (Option String)) (i : ℕ) : Option String := mvs.getD i none

/-- Source `e || '0'`: default an absent or empty (falsy) string to `"0"`. -/
def orZero (o : Option String) : String :=
  match o with
  | some s => if s = "" then "0" else s
  | none => "0"

/-- Source `e || '(not set)'` for dimension values. -/
def orNotSet (o : Option String) : String :=
  match o with
  | some s => if s = "" then "(not set)" else s
  | none => "(not set)"

/-- Source `row.metricValues?.[i]?.value || '0'`. -/
def rowVal (r : GARow) (i : ℕ) : String := orZero (mvAt r.metricValues i)

/-- Source `m[i]?.value` used as a truthiness test: `some` exactly when the entry
exists and is a non-empty string. -/
def truthyAt (m : List (Option String)) (i : ℕ) : Option String :=
  match mvAt m i with
  | some s => if s = "" then none else some s
  | none => none

/-! ## Aggregation helpers of `getPathReport` -/

/-- Source function `sumMetric`:
`String(rows.reduce((sum, row) => sum + parseFloat(row.metricValues?.[metricIndex]?.value || '0'), 0))`. -/
def sumMetric (rows : List GARow) (metricIndex : ℕ) : String :=
  jnumToString
    (rows.foldl (fun sum row => jadd sum (jparseFloat (rowVal row metricIndex))) (.num 0 1))

/-- Source function `weightedAvg`: `'0'` on no rows; the raw row value on exactly
one row; otherwise `Σ vᵢ·wᵢ / Σ wᵢ` rounded to two decimals when the weight
sum is positive, else `'0'`.  The accumulating fold mirrors the source's
`forEach` over `(sumWx, sumW)`. -/
def weightedAvg (rows : List GARow) (metricIndex : ℕ) (weightIndex : ℕ) : String :=
  match rows with
  | [] => "0"
  | [row] => rowVal row metricIndex
  | _ =>
    let acc := rows.foldl
      (fun (p : JNum × JNum) row =>
        let w := jparseFloat (rowVal row weightIndex)
        (jadd p.1 (jmul (jparseFloat (rowVal row metricIndex)) w), jadd p.2 w))
      (.num 0 1, .num 0 1)
    if jgt0 acc.2 then jnumToString (jdivP (jround (jmul (jdiv acc.1 acc.2) (jint 100))) 100)
    else "0"

/-- Source function `formatRate` inside `getPathReport`: scale a fraction strictly
between 0 and 1 to a percentage with one decimal
(`String(Math.round(n * 1000) / 10)`); anything else is returned unchanged. -/
def formatRatePath (v : String) : String :=
  let n := jparseFloat v
  if jgt0 n && jlt1 n then jnumToString (jdivP (jround (jmul n (jint 1000))) 10)
  else v

/-- Source function `formatRate` inside `getTopPagesReport`: non-numeric input is
returned unchanged; a fraction strictly between 0 and 1 is scaled to a
percentage with one decimal; anything else is rounded to one decimal
(`String(Math.round(n * 10) / 10)`). -/
def formatRateTop (v : String) : String :=
  let n := jparseFloat v
  if jIsNaN n then v
  else if jgt0 n && jlt1 n then jnumToString (jdivP (jround (jmul n (jint 1000))) 10)
  else jnumToString (jdivP (jround (jmul n (jint 10))) 10)

/-- Source function `formatDuration`: non-numeric input unchanged, otherwise
rounded to one decimal. -/
def formatDuration (v : String) : String :=
  let n := jparseFloat v
  if jIsNaN n then v else jnumToString (jdivP (jround (jmul n (jint 10))) 10)

/-- Source function `metric`: prefer the truthy totals entry; on no rows `'0'`;
sum the five summable indices 0–4; weighted-average the rest with weight
index 0; finally format index 5 as a duration and indices 6–7 as rates. -/
def metricFn (m : List (Option String)) (rows : List GARow) (i : ℕ) : String :=
  let v :=
    match truthyAt m i with
    | some s => s
    | none =>
      if rows.length = 0 then "0"
      else if [0, 1, 2, 3, 4].contains i then sumMetric rows i
      else weightedAvg rows i 0
  if i = 5 then formatDuration v
  else if i = 6 || i = 7 then formatRatePath v
  else v

/-- One entry of the `byPath` list returned by `getPathReport`. -/
structure PathRowOut where
  pagePath : String
  sessions : String
  totalUsers : String
  newUsers : String
  pageviews : String
  eventCount : String
  averageSessionDuration : String
  bounceRate : String
  engagementRate : String
deriving DecidableEq

/-- Source `byPath` row construction (`rows.map`). -/
def byPathRow (r : GARow) : PathRowOut :=
  { pagePath := orNotSet (r.dimensionValues.getD 0 none)
    sessions := rowVal r 0
    totalUsers := rowVal r 1
    newUsers := rowVal r 2
    pageviews := rowVal r 3
    eventCount := rowVal r 4
    averageSessionDuration := rowVal r 5
    bounceRate := rowVal r 6
    engagementRate := rowVal r 7 }

/-- The aggregated summary `getPathReport` builds from the final response. -/
structure AggregatedReport where
  sessions : String
  totalUsers : String
  newUsers : String
  pageviews : String
  eventCount : String
  averageSessionDuration : String
  bounceRate : String
  engagementRate : String
  byPath : List PathRowOut
deriving DecidableEq

/-- The aggregation tail of `getPathReport`: `totals = res.data?.totals?.[0]?.metricValues`,
`m = totals || []`, the eight `metric(i)` calls and the `byPath` map. -/
def aggregateReport (res : GAResponse) : AggregatedReport :=
  let m := res.totals.headD []
  { sessions := metricFn m res.rows 0
    totalUsers := metricFn m res.rows 1
    newUsers := metricFn m res.rows 2
    pageviews := metricFn m res.rows 3
    eventCount := metricFn m res.rows 4
    averageSessionDuration := metricFn m res.rows 5
    bounceRate := metricFn m res.rows 6
    engagementRate := metricFn m res.rows 7
    byPath := res.rows.map byPathRow }

/-! ## Path handling (`getPathVariants`, `normalized`, `basePath`) -/

/-- JS `String.prototype.trim` on a character list. -/
def trimL (l : List Char) : List Char :=
  ((l.dropWhile isJsWs).reverse.dropWhile isJsWs).reverse

/-- JS `s.trim()` on a string. -/
def jsTrim (s : String) : String := String.mk (trimL s.data)

/-- Source `p.startsWith('/') ? p : '/' + p` on a trimmed character list. -/
def ensureLeadingSlash (p : List Char) : List Char :=
  if p.head? = some '/' then p else '/' :: p

/-- Source test `normalized.endsWith('/')`. -/
def endsSlash (l : List Char) : Bool := l.getLast? = some '/'

/-- Source `normalized.endsWith('/') ? normalized : normalized + '/'`. -/
def withTrailingL (n : List Char) : List Char :=
  if endsSlash n then n else n ++ ['/']

/-- Source `normalized.endsWith('/') ? normalized.slice(0, -1) : normalized`. -/
def withoutTrailingL (n : List Char) : List Char :=
  if endsSlash n then n.dropLast else n

/-- Source function `getPathVariants` on a character list: trim, reject empty,
ensure a leading slash, special-case the root, else return the deduplicated
pair `[withTrailing, withoutTrailing]` (the spread of a two-element `Set`
keeps insertion order and collapses equal members). -/
def getPathVariantsL (l : List Char) : List (List Char) :=
  let p := trimL l
  if p = [] then []
  else
    let normalized := ensureLeadingSlash p
    if normalized = ['/'] then [['/']]
    else
      let wt := withTrailingL normalized
      let wo := withoutTrailingL normalized
      if wt = wo then [wt] else [wt, wo]

/-- Source function `getPathVariants` on a string. -/
def getPathVariants (s : String) : List String :=
  (getPathVariantsL s.data).map String.mk

/-- The `normalized` local of `getPathReport` (recomputed from
`pathInput.trim()`, line 212 of the source). -/
def normalizedL (l : List Char) : List Char := ensureLeadingSlash (trimL l)

/-- The `basePath` local of `getPathReport`: `normalized` with one trailing
slash stripped, if present. -/
def basePathL (l : List Char) : List Char := withoutTrailingL (normalizedL l)

/-- The `basePath` local on a string. -/
def basePath (s : String) : String := String.mk (basePathL s.data)

example : getPathVariants "/" = ["/"] := by decide
example : getPathVariants "about" = ["/about/", "/about"] := by decide
example : getPathVariants "  /about/  " = ["/about/", "/about"] := by decide
example : getPathVariants "   " = [] := by decide
example : basePath "/about/" = "/about" := by decide

/-! ## The two-phase query of `getPathReport` -/

/-- A `dimensionFilter` of a report request: the exact-variant `inListFilter`
of phase 1 or the prefix `stringFilter` of phase 2. -/
inductive DimensionFilter where
  | inList (fieldName : String) (values : List String) (caseSensitive : Bool)
  | stringF (fieldName : String) (matchType : String) (value : String) (caseSensitive : Bool)
deriving DecidableEq

/-- The request shape `buildRequest` produces (source lines 215–231). -/
structure ReportRequest where
  property : String
  dateRanges : List (String × String)
  dimensions : List String
  metrics : List String
  dimensionFilter : DimensionFilter
deriving DecidableEq

/-- The eight metrics `getPathReport` requests, in order. -/
def pathReportMetrics : List String :=
  ["sessions", "totalUsers", "newUsers", "screenPageViews", "eventCount",
   "averageSessionDuration", "bounceRate", "engagementRate"]

/-- Source function `buildRequest`: fixed property, date range, `pagePath`
dimension and metric list around the given filter. -/
def buildRequest (propertyId startDate endDate : String) (f : DimensionFilter) : ReportRequest :=
  { property := "properties/" ++ propertyId
    dateRanges := [(startDate, endDate)]
    dimensions := ["pagePath"]
    metrics := pathReportMetrics
    dimensionFilter := f }

/-- The phase 1 request: case-insensitive `inListFilter` over the path
variants. -/
def phase1Request (propertyId startDate endDate pathInput : String) : ReportRequest :=
  buildRequest propertyId startDate endDate
    (.inList "pagePath" (getPathVariants pathInput) false)

/-- Source function `getTotalViews`:
`parseInt(r?.data?.totals?.[0]?.metricValues?.[3]?.value || '0', 10)`. -/
def getTotalViews (res : GAResponse) : JNum :=
  jparseInt (orZero (mvAt (res.totals.headD []) 3))

/-- The phase 2 trigger (source line 246):
`getTotalViews(res) === 0 && getRows(res).length === 0`. -/
def fallbackTriggered (res : GAResponse) : Bool :=
  jeq0 (getTotalViews res) && decide (res.rows.length = 0)

/-- The phase 2 (prefix fallback) request, issued only when the trigger
fires: case-insensitive `BEGINS_WITH` `stringFilter` on `basePath`. -/
def phase2Request (propertyId startDate endDate pathInput : String) (res : GAResponse) :
    Option ReportRequest :=
  if fallbackTriggered res then
    some (buildRequest propertyId startDate endDate
      (.stringF "pagePath" "BEGINS_WITH" (basePath pathInput) false))
  else none

/-! ## The `getPathReport` entry point

`requirePropertyId` throws when no property is selected (`this.propertyId`
is `null`), then an empty variant list throws; network calls are modelled
by an oracle `run` from requests to responses.  Errors carry the exact
message strings the source throws. -/

/-- The full result object of `getPathReport`. -/
structure PathReport where
  path : String
  pathVariants : List String
  report : AggregatedReport
deriving DecidableEq

/-- The pure pipeline of `getPathReport`: property check, variant check,
phase 1 query, conditional phase 2 fallback, aggregation. -/
def getPathReport (propertyId : Option String) (pathInput startDate endDate : String)
    (run : ReportRequest → GAResponse) : Except String PathReport :=
  match propertyId with
  | none => .error "No property selected. Provide --property <id> or add \"propertyId\" to ~/.ga4-cli/config.json"
  | some pid =>
    let pathVariants := getPathVariants pathInput
    if pathVariants.length = 0 then .error "Path cannot be empty"
    else
      let res1 := run (phase1Request pid startDate endDate pathInput)
      let res :=
        match phase2Request pid startDate endDate pathInput res1 with
        | some req2 => run req2
        | none => res1
      .ok { path := pathInput, pathVariants := pathVariants, report := aggregateReport res }

/-! ## Helper lemmas on `JNum` sums -/

theorem jadd_assoc (a b c : JNum) : jadd (jadd a b) c = jadd a (jadd b c) := by
  cases a <;> cases b <;> cases c <;> simp only [jadd, JNum.num.injEq] <;>
    constructor <;> push_cast <;> ring

theorem jadd_zero_left (x : JNum) : jadd (.num 0 1) x = x := by
  cases x <;> simp only [jadd, JNum.num.injEq] <;> constructor <;> push_cast <;> ring

theorem jadd_zero_right (x : JNum) : jadd x (.num 0 1) = x := by
  cases x <;> simp only [jadd, JNum.num.injEq] <;> constructor <;> push_cast <;> ring

/-- A left fold accumulating `jadd` is the `jadd`-sum of the mapped list. -/
theorem foldl_jadd_eq_sum (f : GARow → JNum) (l : List GARow) (z : JNum) :
    l.foldl (fun s r => jadd s (f r)) z = jadd z ((l.map f).foldr jadd (.num 0 1)) := by
  induction l generalizing z with
  | nil => simp [jadd_zero_right]
  | cons a t ih =>
    simp only [List.foldl_cons, List.map_cons, List.foldr_cons]
    rw [ih, jadd_assoc]

/-- The paired fold of `weightedAvg` computes the two `jadd`-sums
componentwise. -/
theorem foldl_pair_eq_sums (f g : GARow → JNum) (l : List GARow) (z₁ z₂ : JNum) :
    l.foldl (fun p r => (jadd p.1 (f r), jadd p.2 (g r))) (z₁, z₂) =
      (jadd z₁ ((l.map f).foldr jadd (.num 0 1)), jadd z₂ ((l.map g).foldr jadd (.num 0 1))) := by
  induction l generalizing z₁ z₂ with
  | nil => simp [jadd_zero_right]
  | cons a t ih =>
    simp only [List.foldl_cons, List.map_cons, List.foldr_cons]
    rw [ih, jadd_assoc, jadd_assoc]

/-! ## Spec-language aggregation

The following definitions transcribe the SPEC's description of the
aggregation (pure sums of the rows' values; a weighted average over an
explicit weight column, rounded like the code to two decimals), to be
compared with the code's fold-based `sumMetric` / `weightedAvg`. -/

/-- Spec side: the pure sum of metric column `i` over the rows. -/
def specSumMetric (rows : List GARow) (i : ℕ) : String :=
  jnumToString ((rows.map (fun r => jparseFloat (rowVal r i))).foldr jadd (.num 0 1))

/-- Spec side: the summed weight column (the code's `sumW`). -/
def weightSum (rows : List GARow) (w : ℕ) : JNum :=
  (rows.map (fun r => jparseFloat (rowVal r w))).foldr jadd (.num 0 1)

/-- Spec side: the weighted average of metric column `i` with weight column
`w` — `Σ vᵢ·wᵢ / Σ wᵢ`, rounded to two decimals, `"0"` on a non-positive
weight sum.  The claim instantiates `w` with the pageview column (3); the
amended claim with the session column (0). -/
def specWeightedAvg (rows : List GARow) (i w : ℕ) : String :=
  let sumW := weightSum rows w
  let sumWx := (rows.map (fun r => jmul (jparseFloat (rowVal r i)) (jparseFloat (rowVal r w)))).foldr
    jadd (.num 0 1)
  if jgt0 sumW then jnumToString (jdivP (jround (jmul (jdiv sumWx sumW) (jint 100))) 100)
  else "0"

/-- Spec side: rounding a number to one decimal place. -/
def roundTo1dp (x : JNum) : JNum := jdivP (jround (jmul x (jint 10))) 10

/-- The code's `sumMetric` is exactly the spec's pure sum. -/
theorem sumMetric_eq_spec (rows : List GARow) (i : ℕ) :
    sumMetric rows i = specSumMetric rows i := by
  simp only [sumMetric, specSumMetric, foldl_jadd_eq_sum, jadd_zero_left]

/-- On more than one row, the code's `weightedAvg` is exactly the spec's
weighted average with the same weight column. -/
theorem weightedAvg_eq_spec (rows : List GARow) (i w : ℕ) (h : 1 < rows.length) :
    weightedAvg rows i w = specWeightedAvg rows i w := by
  match rows, h with
  | a :: b :: t, _ =>
    simp only [weightedAvg, specWeightedAvg, weightSum, foldl_pair_eq_sums, jadd_zero_left]

/-! ## Small facts about the comparison helpers -/

theorem jgt0_eq_false_of_jeq0 (x : JNum) (h : jeq0 x = true) : jgt0 x = false := by
  cases x <;> simp [jeq0, jgt0] at * <;> omega

theorem jgt0_eq_false_of_jIsNaN (x : JNum) (h : jIsNaN x = true) : jgt0 x = false := by
  cases x <;> simp [jIsNaN, jgt0] at *

/-- C10: calling `getPathReport` with no property configured fails with the
missing-property error before any path validation: every path input —
including the empty and whitespace-only ones — yields the `ConfigError`
message, never the empty-path error. -/
theorem c10_no_property_fails_before_path_validation
    (pathInput startDate endDate : String) (run : ReportRequest → GAResponse) :
    getPathReport none pathInput startDate endDate run =
      .error "No property selected. Provide --property <id> or add \"propertyId\" to ~/.ga4-cli/config.json" := by
  rfl

/-- C7: every input that is empty after trimming (including `""` and
whitespace-only strings) makes `getPathReport` fail with the
empty-path (`InvalidInput`) error. -/
theorem c7_empty_after_trim_is_invalid_input
    (pid pathInput startDate endDate : String) (run : ReportRequest → GAResponse)
    (h : trimL pathInput.data = []) :
    getPathReport (some pid) pathInput startDate endDate run = .error "Path cannot be empty" := by
  have hv : getPathVariants pathInput = [] := by
    simp [getPathVariants, getPathVariantsL, h]
  simp [getPathReport, hv]

theorem c7_empty_after_trim_is_invalid_input_witness :
    getPathReport (some "268092156") "   " "7daysAgo" "today" (fun _ => {}) =
      .error "Path cannot be empty" :=
  c7_empty_after_trim_is_invalid_input "268092156" "   " "7daysAgo" "today"
    (fun _ => {}) (by decide)

/-- C9: with more than one row and a zero total weight, `weightedAvg`
returns `"0"` — the division branch is never taken, so no division by zero
and no NaN is produced. -/
theorem c9_zero_weight_sum_yields_zero (rows : List GARow) (i w : ℕ)
    (h1 : 1 < rows.length) (h0 : jeq0 (weightSum rows w) = true) :
    weightedAvg rows i w = "0" := by
  cases rows with
  | nil => simp at h1
  | cons a t =>
    cases t with
    | nil => simp at h1
    | cons b t' =>
      simp only [weightSum] at h0
      simp only [weightedAvg, foldl_pair_eq_sums, jadd_zero_left]
      rw [jgt0_eq_false_of_jeq0 _ h0]
      simp

theorem c9_zero_weight_sum_yields_zero_witness :
    weightedAvg
      [{ metricValues := [some "0", none, none, none, none, some "3.5"] },
       { metricValues := [some "0", none, none, none, none, some "4.5"] }] 5 0 = "0" :=
  c9_zero_weight_sum_yields_zero _ 5 0 (by decide) (by decide)

/-- C2: the prefix-fallback (phase 2) query is issued iff phase 1 returned
zero rows and a zero parsed pageview total; when issued it keeps the exact
query shape of phase 1 and swaps the filter for a case-insensitive
`BEGINS_WITH` string filter on `basePath` (the normalized path with a
trailing slash stripped). -/
theorem c2_prefix_fallback_trigger_and_filter
    (pid startDate endDate pathInput : String) (res : GAResponse) :
    ((phase2Request pid startDate endDate pathInput res).isSome ↔
      (res.rows = [] ∧ jeq0 (getTotalViews res) = true)) ∧
    ∀ req, phase2Request pid startDate endDate pathInput res = some req →
      req.dimensionFilter =
        .stringF "pagePath" "BEGINS_WITH" (basePath pathInput) false ∧
      req.property = (phase1Request pid startDate endDate pathInput).property ∧
      req.dateRanges = (phase1Request pid startDate endDate pathInput).dateRanges ∧
      req.dimensions = (phase1Request pid startDate endDate pathInput).dimensions ∧
      req.metrics = (phase1Request pid startDate endDate pathInput).metrics := by
  constructor
  · simp only [phase2Request]
    by_cases hf : fallbackTriggered res
    · simp only [hf, if_true, Option.isSome_some, true_iff]
      simp only [fallbackTriggered, Bool.and_eq_true, decide_eq_true_eq] at hf
      exact ⟨List.length_eq_zero.mp hf.2, hf.1⟩
    · simp only [hf]
      simp only [Bool.false_eq_true, if_false, Option.isSome_none, false_iff, not_and]
      intro hrows hz
      exact hf (by simp [fallbackTriggered, hrows, hz])
  · intro req hreq
    simp only [phase2Request] at hreq
    by_cases hf : fallbackTriggered res
    · rw [if_pos hf] at hreq
      injection hreq with h
      subst h
      exact ⟨rfl, rfl, rfl, rfl, rfl⟩
    · rw [if_neg hf] at hreq
      exact absurd hreq (by simp)

theorem c2_prefix_fallback_trigger_and_filter_witness :
    (buildRequest "268092156" "7daysAgo" "today"
        (.stringF "pagePath" "BEGINS_WITH" (basePath "/About/") false)).dimensionFilter =
      .stringF "pagePath" "BEGINS_WITH" (basePath "/About/") false ∧
    (phase2Request "268092156" "7daysAgo" "today" "/About/" {}).isSome :=
  ⟨((c2_prefix_fallback_trigger_and_filter "268092156" "7daysAgo" "today" "/About/" {}).2
      (buildRequest "268092156" "7daysAgo" "today"
        (.stringF "pagePath" "BEGINS_WITH" (basePath "/About/") false)) (by decide)).1,
   (c2_prefix_fallback_trigger_and_filter "268092156" "7daysAgo" "today" "/About/" {}).1.mpr
     ⟨rfl, by decide⟩⟩

/-- C4 (amended): on a response with zero rows and no totals row, all eight
summary metrics are `"0"` and `byPath` is empty. -/
theorem c4_zero_rows_no_totals_all_zero (res : GAResponse)
    (ht : res.totals = []) (hr : res.rows = []) :
    aggregateReport res =
      { sessions := "0", totalUsers := "0", newUsers := "0", pageviews := "0",
        eventCount := "0", averageSessionDuration := "0", bounceRate := "0",
        engagementRate := "0", byPath := [] } := by
  obtain ⟨t, r⟩ := res
  simp only at ht hr
  subst ht
  subst hr
  decide

theorem c4_zero_rows_no_totals_all_zero_witness :
    aggregateReport { totals := [], rows := [] } =
      { sessions := "0", totalUsers := "0", newUsers := "0", pageviews := "0",
        eventCount := "0", averageSessionDuration := "0", bounceRate := "0",
        engagementRate := "0", byPath := [] } :=
  c4_zero_rows_no_totals_all_zero { totals := [], rows := [] } rfl rfl

/-- A response with zero rows but a non-zero totals row (reachable: phase 1
keeps such a response because the fallback needs both a zero total and zero
rows). -/
def c4Res : GAResponse :=
  { totals := [[some "5", some "5", some "5", some "5", some "5",
                some "7.5", some "0.5", some "0.5"]]
    rows := [] }

/-- C4 counterexample: a zero-row response whose totals row is non-zero
yields the totals values, not `"0"`, as summary metrics. -/
theorem c4_counterexample :
    c4Res.rows = [] ∧ (aggregateReport c4Res).sessions = "5" ∧
    (aggregateReport c4Res).sessions ≠ "0" := by decide

/-- C3 (amended): on a single-row response without totals, no cross-row
arithmetic happens, but each metric is still post-processed: summable
metrics are the numeric re-serialization of the row value (equal to it only
when the value is already canonical), and the duration/rate metrics pass
through `formatDuration` / `formatRate`. -/
theorem c3_single_row_metrics (r : GARow) :
    (aggregateReport { totals := [], rows := [r] }).sessions =
      jnumToString (jparseFloat (rowVal r 0)) ∧
    (aggregateReport { totals := [], rows := [r] }).totalUsers =
      jnumToString (jparseFloat (rowVal r 1)) ∧
    (aggregateReport { totals := [], rows := [r] }).newUsers =
      jnumToString (jparseFloat (rowVal r 2)) ∧
    (aggregateReport { totals := [], rows := [r] }).pageviews =
      jnumToString (jparseFloat (rowVal r 3)) ∧
    (aggregateReport { totals := [], rows := [r] }).eventCount =
      jnumToString (jparseFloat (rowVal r 4)) ∧
    (aggregateReport { totals := [], rows := [r] }).averageSessionDuration =
      formatDuration (rowVal r 5) ∧
    (aggregateReport { totals := [], rows := [r] }).bounceRate =
      formatRatePath (rowVal r 6) ∧
    (aggregateReport { totals := [], rows := [r] }).engagementRate =
      formatRatePath (rowVal r 7) ∧
    (aggregateReport { totals := [], rows := [r] }).byPath = [byPathRow r] := by
  refine ⟨?_, ?_, ?_, ?_, ?_, ?_, ?_, ?_, rfl⟩ <;>
    simp [aggregateReport, metricFn, truthyAt, mvAt, sumMetric, weightedAvg, jadd_zero_left]

/-- A row whose values are valid but non-canonical (`"1.50"`) or
fraction-scale rates (`"0.5"`). -/
def c3Row : GARow :=
  { dimensionValues := [some "/x"]
    metricValues := [some "1.50", some "2", some "3", some "4", some "5",
                     some "6.25", some "0.5", some "0.75"] }

/-- C3 counterexample: even with a single row the summary is not
string-for-string equal to the row: the session count is re-serialized
(`"1.50"` becomes `"1.5"`) and the bounce rate is rescaled
(`"0.5"` becomes `"50"`). -/
theorem c3_counterexample :
    (aggregateReport { totals := [], rows := [c3Row] }).sessions = "1.5" ∧
    rowVal c3Row 0 = "1.50" ∧
    (aggregateReport { totals := [], rows := [c3Row] }).sessions ≠ rowVal c3Row 0 ∧
    (aggregateReport { totals := [], rows := [c3Row] }).bounceRate = "50" ∧
    rowVal c3Row 6 = "0.5" ∧
    (aggregateReport { totals := [], rows := [c3Row] }).bounceRate ≠ rowVal c3Row 6 := by
  decide

/-- C6 (amended): aggregation is a total function that treats MISSING or
empty metric values as zero — appending a row with no value in the summed
column leaves the sum unchanged — and a NaN in the weight column makes the
weighted average fall back to `"0"`; but a non-numeric value string parses
to NaN, which does propagate into summed metrics (see the counterexample). -/
theorem c6_missing_values_treated_as_zero :
    (∀ (rows : List GARow) (r : GARow) (i : ℕ),
        mvAt r.metricValues i = none ∨ mvAt r.metricValues i = some "" →
        sumMetric (rows ++ [r]) i = sumMetric rows i) ∧
    (∀ (rows : List GARow) (i w : ℕ), 1 < rows.length →
        jIsNaN (weightSum rows w) = true → weightedAvg rows i w = "0") := by
  constructor
  · intro rows r i h
    have hv : rowVal r i = "0" := by
      rcases h with h | h <;> simp [rowVal, h, orZero]
    have hz : jparseFloat (rowVal r i) = .num 0 1 := by rw [hv]; decide
    simp only [sumMetric, List.foldl_append, List.foldl_cons, List.foldl_nil, hz,
      jadd_zero_right]
  · intro rows i w h1 hnan
    cases rows with
    | nil => simp at h1
    | cons a t =>
      cases t with
      | nil => simp at h1
      | cons b t' =>
        simp only [weightSum] at hnan
        simp only [weightedAvg, foldl_pair_eq_sums, jadd_zero_left]
        rw [jgt0_eq_false_of_jIsNaN _ hnan]
        simp

theorem c6_missing_values_treated_as_zero_witness :
    sumMetric [{ metricValues := [some "2"] }, { metricValues := [] }] 0 =
      sumMetric [{ metricValues := [some "2"] }] 0 ∧
    weightedAvg [{ metricValues := [some "abc", some "7"] },
                 { metricValues := [some "1", some "9"] }] 1 0 = "0" :=
  ⟨c6_missing_values_treated_as_zero.1 [{ metricValues := [some "2"] }]
      { metricValues := [] } 0 (Or.inl (by decide)),
   c6_missing_values_treated_as_zero.2
      [{ metricValues := [some "abc", some "7"] },
       { metricValues := [some "1", some "9"] }] 1 0 (by decide) (by decide)⟩

/-- A row with a non-numeric session count. -/
def c6Row : GARow := { dimensionValues := [some "/x"], metricValues := [some "abc"] }

/-- C6 counterexample: the non-numeric value `"abc"` is NOT treated as
zero: it parses to NaN and the summed session metric becomes `"NaN"`. -/
theorem c6_counterexample :
    (aggregateReport { totals := [], rows := [c6Row] }).sessions = "NaN" := by decide

/-- Scaling by 1000 is scaling by 100 then by 10 (relates the code's
`Math.round(n * 1000) / 10` to the spec's "multiply by 100, round to one
decimal place"). -/
theorem jmul_1000_eq_100_10 (n : JNum) :
    jmul n (jint 1000) = jmul (jmul n (jint 100)) (jint 10) := by
  cases n <;> simp only [jmul, jint, JNum.num.injEq] <;> constructor <;> push_cast <;> ring

/-- C5 (amended): both rate formatters multiply a value strictly between 0
and 1 by 100 and round to one decimal place; outside that range they
differ — `getTopPagesReport`'s formatter rounds the value to one decimal
place (passing non-numeric input through), while `getPathReport`'s
formatter returns the input string UNCHANGED, with no rounding. -/
theorem c5_rate_formatters :
    (∀ v : String, (jgt0 (jparseFloat v) && jlt1 (jparseFloat v)) = false →
        formatRatePath v = v) ∧
    (∀ v : String, jIsNaN (jparseFloat v) = true → formatRateTop v = v) ∧
    (∀ v : String, (jgt0 (jparseFloat v) && jlt1 (jparseFloat v)) = true →
        formatRatePath v = jnumToString (roundTo1dp (jmul (jparseFloat v) (jint 100))) ∧
        formatRateTop v = jnumToString (roundTo1dp (jmul (jparseFloat v) (jint 100)))) ∧
    (∀ v : String, jIsNaN (jparseFloat v) = false →
        (jgt0 (jparseFloat v) && jlt1 (jparseFloat v)) = false →
        formatRateTop v = jnumToString (roundTo1dp (jparseFloat v))) := by
  refine ⟨?_, ?_, ?_, ?_⟩
  · intro v h
    simp [formatRatePath, h]
  · intro v h
    simp [formatRateTop, h]
  · intro v h
    have hn : jIsNaN (jparseFloat v) = false := by
      have h' := h
      rw [Bool.and_eq_true] at h'
      obtain ⟨hg, _⟩ := h'
      cases hx : jparseFloat v
      · rw [hx] at hg; simp [jgt0] at hg
      · simp [jIsNaN]
    constructor
    · simp only [formatRatePath, h, if_true, roundTo1dp, ← jmul_1000_eq_100_10]
    · simp only [formatRateTop, hn, Bool.false_eq_true, if_false, h, if_true, roundTo1dp,
        ← jmul_1000_eq_100_10]
  · intro v hn h
    simp only [formatRateTop, hn, Bool.false_eq_true, if_false, h, roundTo1dp]

theorem c5_rate_formatters_witness :
    formatRatePath "42.37" = "42.37" ∧
    formatRatePath "0.10523" = jnumToString (roundTo1dp (jmul (jparseFloat "0.10523") (jint 100))) ∧
    formatRateTop "42.37" = jnumToString (roundTo1dp (jparseFloat "42.37")) :=
  ⟨c5_rate_formatters.1 "42.37" (by decide),
   (c5_rate_formatters.2.2.1 "0.10523" (by decide)).1,
   c5_rate_formatters.2.2.2 "42.37" (by decide) (by decide)⟩

/-- C5 counterexample: `getPathReport`'s rate formatter does NOT round
values outside (0,1) to one decimal place: `formatRate("42.37")` returns
`"42.37"` unchanged, not `"42.4"` (which the `getTopPagesReport` variant
does produce). -/
theorem c5_counterexample :
    formatRatePath "42.37" = "42.37" ∧ formatRatePath "42.37" ≠ "42.4" ∧
    formatRateTop "42.37" = "42.4" ∧
    formatRatePath "0.10523" = "10.5" := by decide

/-- Two rows on which session-weighting and pageview-weighting of the
average session duration disagree. -/
def c1Rows : List GARow :=
  [{ dimensionValues := [some "/a"]
     metricValues := [some "1", some "0", some "0", some "100", some "0",
                      some "10", some "0", some "0"] },
   { dimensionValues := [some "/b"]
     metricValues := [some "100", some "0", some "0", some "1", some "0",
                      some "20", some "0", some "0"] }]

/-- C1 counterexample: with more than one row, the aggregated
`averageSessionDuration` is NOT the pageview-weighted (column 3) average:
the code returns the session-weighted value `"19.9"`, while the
pageview-weighted average of the same rows is `"10.1"`. -/
theorem c1_counterexample :
    1 < c1Rows.length ∧
    metricFn [] c1Rows 5 = "19.9" ∧
    formatDuration (specWeightedAvg c1Rows 5 3) = "10.1" ∧
    metricFn [] c1Rows 5 ≠ formatDuration (specWeightedAvg c1Rows 5 3) := by decide

/-- C1 (amended): with more than one row and no totals, the five summable
metrics (columns 0–4) are the pure sums of the rows' values, and the
rate/duration metrics (columns 5–7) are weighted averages whose weight for
each row is that row's SESSION count (metric index 0, not the pageview
index 3), post-processed by the duration/rate formatters. -/
theorem c1_multirow_aggregation (rows : List GARow) (h : 1 < rows.length) :
    metricFn [] rows 0 = specSumMetric rows 0 ∧
    metricFn [] rows 1 = specSumMetric rows 1 ∧
    metricFn [] rows 2 = specSumMetric rows 2 ∧
    metricFn [] rows 3 = specSumMetric rows 3 ∧
    metricFn [] rows 4 = specSumMetric rows 4 ∧
    metricFn [] rows 5 = formatDuration (specWeightedAvg rows 5 0) ∧
    metricFn [] rows 6 = formatRatePath (specWeightedAvg rows 6 0) ∧
    metricFn [] rows 7 = formatRatePath (specWeightedAvg rows 7 0) := by
  have hne : ¬ rows.length = 0 := by omega
  refine ⟨?_, ?_, ?_, ?_, ?_, ?_, ?_, ?_⟩ <;>
    simp [metricFn, truthyAt, mvAt, hne, sumMetric_eq_spec, weightedAvg_eq_spec _ _ _ h]

theorem c1_multirow_aggregation_witness :
    metricFn [] c1Rows 5 = formatDuration (specWeightedAvg c1Rows 5 0) ∧
    metricFn [] c1Rows 0 = specSumMetric c1Rows 0 :=
  ⟨(c1_multirow_aggregation c1Rows (by decide)).2.2.2.2.2.1,
   (c1_multirow_aggregation c1Rows (by decide)).1⟩

/-! ## Structure of the path variants -/

theorem eq_dropLast_concat_of_endsSlash (l : List Char) (h : endsSlash l = true) :
    l = l.dropLast ++ ['/'] := by
  rcases l.eq_nil_or_concat with rfl | ⟨l', a, rfl⟩
  · simp [endsSlash] at h
  · simp only [endsSlash, List.concat_eq_append, List.getLast?_concat, Option.some.injEq,
      decide_eq_true_eq] at h
    subst h
    simp [List.concat_eq_append, List.dropLast_concat]

theorem withTrailingL_eq_concat (n : List Char) (h : n ≠ []) :
    withTrailingL n = withoutTrailingL n ++ ['/'] := by
  by_cases hs : endsSlash n
  · simp only [withTrailingL, withoutTrailingL, hs, if_true]
    exact eq_dropLast_concat_of_endsSlash n hs
  · have hs' : endsSlash n = false := by simpa using hs
    simp [withTrailingL, withoutTrailingL, hs']

theorem withTrailingL_ne (n : List Char) (h : n ≠ []) :
    withTrailingL n ≠ withoutTrailingL n := by
  intro he
  rw [withTrailingL_eq_concat n h] at he
  simpa using congrArg List.length he

theorem endsSlash_withTrailingL (n : List Char) (h : n ≠ []) :
    endsSlash (withTrailingL n) = true := by
  rw [withTrailingL_eq_concat n h]
  simp [endsSlash, List.getLast?_concat]

theorem endsSlash_withoutTrailingL (n : List Char)
    (h : ¬ ∃ l, n = l ++ ['/', '/']) : endsSlash (withoutTrailingL n) = false := by
  by_cases hs : endsSlash n
  · simp only [withoutTrailingL, hs, if_true]
    by_contra hds
    simp only [Bool.not_eq_false] at hds
    exact h ⟨n.dropLast.dropLast, by
      conv_lhs => rw [eq_dropLast_concat_of_endsSlash n hs]
      rw [show n.dropLast.dropLast ++ ['/', '/'] =
            (n.dropLast.dropLast ++ ['/']) ++ ['/'] by simp,
          ← eq_dropLast_concat_of_endsSlash n.dropLast hds]⟩
  · have hs' : endsSlash n = false := by simpa using hs
    simp [withoutTrailingL, hs']

theorem normalizedL_ne_nil (l : List Char) (h : trimL l ≠ []) : normalizedL l ≠ [] := by
  simp only [normalizedL, ensureLeadingSlash]
  split
  · exact h
  · simp

/-- On a non-empty trimmed input whose normalized form is the root,
`getPathVariantsL` returns the singleton root variant. -/
theorem getPathVariantsL_root (l : List Char) (hp : trimL l ≠ [])
    (hr : normalizedL l = ['/']) : getPathVariantsL l = [['/']] := by
  unfold getPathVariantsL
  rw [if_neg hp]
  show (if normalizedL l = ['/'] then [['/']] else _) = _
  rw [if_pos hr]

/-- On a non-empty trimmed input whose normalized form is not the root,
`getPathVariantsL` returns the with/without-trailing-slash pair. -/
theorem getPathVariantsL_pair (l : List Char) (hp : trimL l ≠ [])
    (hr : normalizedL l ≠ ['/']) :
    getPathVariantsL l = [withTrailingL (normalizedL l), withoutTrailingL (normalizedL l)] := by
  have hn := normalizedL_ne_nil l hp
  have hne := withTrailingL_ne _ hn
  unfold getPathVariantsL
  rw [if_neg hp]
  show (if normalizedL l = ['/'] then [['/']]
        else if withTrailingL (normalizedL l) = withoutTrailingL (normalizedL l)
          then [withTrailingL (normalizedL l)]
          else [withTrailingL (normalizedL l), withoutTrailingL (normalizedL l)]) = _
  rw [if_neg hr, if_neg hne]

/-- C8 counterexample: on input `"/a//"` both variants end in `"/"`, so it
is not the case that one of the two distinct members lacks the trailing
slash. -/
theorem c8_counterexample :
    getPathVariants "/a//" = ["/a//", "/a/"] ∧
    endsSlash "/a//".data = true ∧ endsSlash "/a/".data = true := by decide

/-- C8 (amended): the root path yields the singleton `["/"]`; every other
non-empty trimmed input yields exactly two distinct variants, both derived
from the normalized leading-slash form — the first is the second plus a
trailing `"/"` — and exactly one of them ends in `"/"` PROVIDED the
normalized form does not end in a doubled slash (for a `"//"`-ended input
both variants keep a trailing slash). -/
theorem c8_path_variants :
    (∀ s : String, trimL s.data ≠ [] → normalizedL s.data = ['/'] →
        getPathVariants s = ["/"]) ∧
    (∀ s : String, trimL s.data ≠ [] → normalizedL s.data ≠ ['/'] →
        getPathVariants s =
          [String.mk (withTrailingL (normalizedL s.data)),
           String.mk (withoutTrailingL (normalizedL s.data))] ∧
        withTrailingL (normalizedL s.data) =
          withoutTrailingL (normalizedL s.data) ++ ['/'] ∧
        String.mk (withTrailingL (normalizedL s.data)) ≠
          String.mk (withoutTrailingL (normalizedL s.data)) ∧
        endsSlash (withTrailingL (normalizedL s.data)) = true ∧
        ((¬ ∃ l, normalizedL s.data = l ++ ['/', '/']) →
          endsSlash (withoutTrailingL (normalizedL s.data)) = false)) := by
  constructor
  · intro s hp hr
    simp [getPathVariants, getPathVariantsL_root s.data hp hr]
  · intro s hp hr
    have hn := normalizedL_ne_nil s.data hp
    have hne := withTrailingL_ne _ hn
    refine ⟨?_, withTrailingL_eq_concat _ hn, fun he => hne (congrArg String.data he),
      endsSlash_withTrailingL _ hn, fun hd => endsSlash_withoutTrailingL _ hd⟩
    simp [getPathVariants, getPathVariantsL_pair s.data hp hr]

theorem c8_path_variants_witness :
    getPathVariants "/" = ["/"] ∧
    getPathVariants "about" = [String.mk (withTrailingL (normalizedL "about".data)),
      String.mk (withoutTrailingL (normalizedL "about".data))] :=
  ⟨c8_path_variants.1 "/" (by decide) (by decide),
   (c8_path_variants.2 "about" (by decide) (by decide)).1⟩
